import Mathlib

set_option maxRecDepth 8000

/-! Verification development for the buildwise Jenkins-failure-analysis
repository.  The Python sources under backend/ are shallowly embedded as
executable Lean definitions: file access is modelled by a map from paths to
optional contents (a `none` result stands for a file whose `open` raises),
the concrete regular-expression scans used by the code are implemented as
explicit character-list scanners, and the external collaborators (git, the
embedding service, the generative model) are modelled as explicit
parameters of the functions that consume them. -/

/-- Python whitespace predicate: the character class of `str.strip` and of
the regex class for whitespace, restricted to its ASCII members. -/
def py_whitespace (c : Char) : Bool :=
  c == ' ' || c == '\t' || c == '\n' || c == '\r' || c == '\x0b' || c == '\x0c'

/-- Python `str.strip()`: drop whitespace on both ends. -/
def py_strip (cs : List Char) : List Char :=
  ((cs.dropWhile py_whitespace).reverse.dropWhile py_whitespace).reverse

/-- Python `str.split(sep)` for a single-character separator: splits on every
occurrence, keeping empty segments, and yields one segment even for the
empty string. -/
def split_on_char (sep : Char) : List Char → List (List Char)
  | [] => [[]]
  | c :: rest =>
    if c == sep then [] :: split_on_char sep rest
    else
      match split_on_char sep rest with
      | [] => [[c]]
      | l :: ls => (c :: l) :: ls

/-- Exact (case-sensitive) substring occurrence, the model of the Python
`in` operator on strings. -/
def occursIn (lit : List Char) : List Char → Bool
  | [] => lit.isEmpty
  | c :: rest => lit.isPrefixOf (c :: rest) || occursIn lit rest

/-- Python `sub in s` on `String`s. -/
def str_contains (sub s : String) : Bool := occursIn sub.toList s.toList

/-- Python `s.startswith(p)`. -/
def str_starts_with (p s : String) : Bool := p.toList.isPrefixOf s.toList

/-- Python `s.endswith(p)`. -/
def str_ends_with (p s : String) : Bool := p.toList.isSuffixOf s.toList

/-- Case-insensitive character equality, the model of matching one literal
character under the IGNORECASE regex flag. -/
def eqCI (a b : Char) : Bool := a.toLower == b.toLower

/-- Case-insensitive list-prefix test. -/
def prefixCI : List Char → List Char → Bool
  | [], _ => true
  | _ :: _, [] => false
  | a :: as, b :: bs => eqCI a b && prefixCI as bs

/-- Case-insensitive occurrence test (helper for the IGNORECASE scans). -/
def occursInCI (lit : List Char) : List Char → Bool
  | [] => prefixCI lit []
  | c :: rest => prefixCI lit (c :: rest) || occursInCI lit rest

/-- Index of the leftmost case-insensitive occurrence of `lit`. -/
def firstOccIdxCI (lit : List Char) : List Char → Option Nat
  | [] => if prefixCI lit [] then some 0 else none
  | c :: rest =>
    if prefixCI lit (c :: rest) then some 0
    else (firstOccIdxCI lit rest).map (· + 1)

/-- Matcher for the tail of a dot-star-separated literal pattern: each
remaining literal must occur, in order, somewhere in the rest of the line
(the patterns of the code have at most one such tail literal, for which
first-occurrence search is exact). -/
def matchSeqCI : List (List Char) → List Char → Bool
  | [], _ => true
  | l :: ls, cs =>
    match firstOccIdxCI l cs with
    | some i => matchSeqCI ls (cs.drop (i + l.length))
    | none => false

/-- Whether a pattern of dot-star-separated literals matches starting exactly
at the head of `cs` (within one line). -/
def matchAtCI (segs : List (List Char)) (cs : List Char) : Bool :=
  match segs with
  | [] => true
  | l :: ls => prefixCI l cs && matchSeqCI ls (cs.drop l.length)

/-- Leftmost start position within one line at which a dot-star-separated
literal pattern matches (case-insensitively). -/
def lineMatchIdx (segs : List (List Char)) : List Char → Option Nat
  | [] => if matchAtCI segs [] then some 0 else none
  | c :: rest =>
    if matchAtCI segs (c :: rest) then some 0
    else (lineMatchIdx segs rest).map (· + 1)

/-- Model of `re.findall(seg1 + ".*" + seg2 + ... + ".*", content, re.IGNORECASE)`
for patterns made of literals separated and terminated by greedy dot-stars.
Since the trailing dot-star extends every match to its end of line and dots
do not cross newlines, each line contributes at most one match: the text
from the leftmost viable start position to the end of that line. -/
def findall_ci (segs : List String) (content : String) : List String :=
  (split_on_char '\n' content.toList).filterMap (fun line =>
    (lineMatchIdx (segs.map String.toList) line).map
      (fun p => String.mk (line.drop p)))

/-- Greedy end offset for a `[^\s]+` bridge: the largest `k ≥ 1` such that
`lit2` occurs at offset `k` of the non-whitespace run. -/
def best_suffix_end (lit2 : List Char) (run : List Char) : Option Nat :=
  ((List.range (run.length + 1)).filter (fun k =>
    decide (1 ≤ k) && decide (k + lit2.length ≤ run.length) &&
    decide ((run.drop k).take lit2.length = lit2))).getLast?

/-- Attempted match, at the head of `cs`, of the regex `lit1[^\s]+lit2`
(e.g. a clone-URL pattern); returns the total match length. -/
def try_url_match (lit1 lit2 : List Char) (cs : List Char) : Option Nat :=
  if lit1.isPrefixOf cs then
    let run := (cs.drop lit1.length).takeWhile (fun c => !(py_whitespace c))
    (best_suffix_end lit2 run).map (fun k => lit1.length + k + lit2.length)
  else none

/-- Fuel-indexed scanner for `re.findall(lit1[^\s]+lit2, content)`: leftmost,
non-overlapping matches.  The fuel is the remaining text length, which
bounds the number of scan steps. -/
def findall_url_aux (lit1 lit2 : List Char) : Nat → List Char → List (List Char)
  | 0, _ => []
  | fuel + 1, cs =>
    match cs with
    | [] => []
    | c :: rest =>
      match try_url_match lit1 lit2 (c :: rest) with
      | some L => ((c :: rest).take L) :: findall_url_aux lit1 lit2 fuel (rest.drop (L - 1))
      | none => findall_url_aux lit1 lit2 fuel rest

/-- `re.findall(lit1[^\s]+lit2, content)` over a character list. -/
def findall_url (lit1 lit2 cs : List Char) : List (List Char) :=
  findall_url_aux lit1 lit2 cs.length cs

/-- Attempted match, at the head of `cs`, of `lead(lit[^\s]+)` — the
"Cloning repository (url...)" patterns; returns the captured group and the
total match length. -/
def try_cloning_match (lead lit : List Char) (cs : List Char) : Option (List Char × Nat) :=
  if (lead ++ lit).isPrefixOf cs then
    let run := (cs.drop (lead.length + lit.length)).takeWhile (fun c => !(py_whitespace c))
    if run.length == 0 then none
    else some (lit ++ run, lead.length + lit.length + run.length)
  else none

/-- Fuel-indexed scanner for `re.findall(lead(lit[^\s]+), content)`,
returning the captured groups. -/
def findall_cloning_aux (lead lit : List Char) : Nat → List Char → List (List Char)
  | 0, _ => []
  | fuel + 1, cs =>
    match cs with
    | [] => []
    | c :: rest =>
      match try_cloning_match lead lit (c :: rest) with
      | some (g, L) => g :: findall_cloning_aux lead lit fuel (rest.drop (L - 1))
      | none => findall_cloning_aux lead lit fuel rest

/-- `re.findall(lead(lit[^\s]+), content)` over a character list. -/
def findall_cloning (lead lit cs : List Char) : List (List Char) :=
  findall_cloning_aux lead lit cs.length cs

/-- The three fixed supplemental repositories appended by
`extract_repos_from_log` (jenkins_fetch_and_vectorize.py, lines 55-59). -/
def additional_repos : List String :=
  ["https://github.com/Meesho/devops-lib.git",
   "https://github.com/Meesho/ringmaster-backend.git",
   "https://github.com/Meesho/ringmaster-frontend.git"]

/-- The validation shape applied to each candidate by
`extract_repos_from_log` (jenkins_fetch_and_vectorize.py, lines 47-52):
https scheme on the github.com host, at least 5 slash-separated segments,
the .git suffix, and no api.git fragment. -/
def valid_repo_check (repo : String) : Bool :=
  str_starts_with "https://github.com/" repo &&
  str_ends_with ".git" repo &&
  decide (5 ≤ (split_on_char '/' repo.toList).length) &&
  !(str_contains "api.git" repo)

/-- Embeds `extract_repos_from_log` (jenkins_fetch_and_vectorize.py, lines
19-68).  `fs` models the file system; a `none` entry is a file whose read
raises, which the function's `except` clause converts to `[]`.  The
`list(set(...))` deduplication is modelled by `List.dedup` (Python set
iteration order is unspecified and no claim depends on it). -/
def extract_repos_from_log (fs : String → Option String) (log_path : String) : List String :=
  match fs log_path with
  | none => []
  | some content =>
    let cs := content.toList
    let lines := split_on_char '\n' cs
    let first_line := py_strip (lines.headD [])
    let repos0 : List String :=
      if !first_line.isEmpty && first_line.contains ',' then
        (split_on_char ',' first_line).map (fun r => String.mk (py_strip r))
      else []
    let github := (findall_url "https://github.com/".toList ".git".toList cs).map String.mk
    let cloning := (findall_cloning "Cloning repository ".toList "https://github.com/".toList cs).map String.mk
    let deduped := (repos0 ++ github ++ cloning).dedup
    let valid := deduped.filter valid_repo_check
    additional_repos.foldl (fun acc repo => if repo ∈ acc then acc else acc ++ [repo]) valid

/-- Embeds `JenkinsAnalyzer._extract_repos_from_log` (rag_pipeline.py, lines
357-397): first-line candidates whenever the first line mentions github.com
or http, three content scans, set deduplication, then strip-and-drop-empty.
No shape validation is performed.  On a read error the accumulated `repos`
list is still `[]`, so the `except` clause returns `[]`. -/
def rag_extract_repos (fs : String → Option String) (log_path : String) : List String :=
  match fs log_path with
  | none => []
  | some content =>
    let cs := content.toList
    let lines := split_on_char '\n' cs
    let l0 := lines.headD []
    let repos0 : List String :=
      if occursIn "github.com".toList l0 || occursIn "http".toList l0 then
        ((split_on_char ',' l0).map (fun r => String.mk (py_strip r))).filter (fun r => !(r == ""))
      else []
    let github := (findall_url "https://github.com/".toList ".git".toList cs).map String.mk
    let general := (findall_url "https://".toList ".git".toList cs).map String.mk
    let cloning := (findall_cloning "Cloning repository ".toList "https://".toList cs).map String.mk
    let deduped := (repos0 ++ github ++ general ++ cloning).dedup
    (deduped.map (fun r => String.mk (py_strip r.toList))).filter (fun r => !(r == ""))

/-- Outcome of one invocation of the underlying `git clone` subprocess
(return code 0, non-zero return code, or `subprocess.TimeoutExpired`). -/
inductive FetchOutcome where
  | success : FetchOutcome
  | failure : FetchOutcome
  | timeout : FetchOutcome
deriving DecidableEq

/-- External git behaviour: the outcome of the n-th fetch performed by the
process. -/
structure CloneEnv where
  fetch_result : Nat → FetchOutcome

/-- Observable state of the repository materializer: which target
directories exist on disk, and how many actual fetches have run.  A
successful clone creates its target directory; a failed or timed-out clone
leaves none (the spec's "no partial state" contract for the fetch tool). -/
structure CloneState where
  existing_dirs : List String
  fetch_count : Nat

/-- Embeds `clone_repository` (jenkins_fetch_and_vectorize.py, lines 70-97):
report success without fetching when the target directory exists, otherwise
run one fetch and report its outcome. -/
def clone_repository (env : CloneEnv) (repo_url target_dir : String) (st : CloneState) :
    Bool × CloneState :=
  if target_dir ∈ st.existing_dirs then (true, st)
  else
    match env.fetch_result st.fetch_count with
    | .success => (true, ⟨target_dir :: st.existing_dirs, st.fetch_count + 1⟩)
    | .failure => (false, ⟨st.existing_dirs, st.fetch_count + 1⟩)
    | .timeout => (false, ⟨st.existing_dirs, st.fetch_count + 1⟩)

/-- Modelled from the spec: the Content Chunker implementation behind
`text_splitter = RecursiveCharacterTextSplitter(chunk_size=800,
chunk_overlap=100)` (vector_indexer.py, line 28) is third-party library
code that is not under src/.  The spec describes its output as an ordered
sequence of chunks covering the document, each chunk overlapping its
predecessor by the overlap amount, with only the last chunk possibly
shorter; this is the fixed-stride sliding window below (stride
800 - 100 = 700).  The fuel argument, initialised to the document length,
bounds the number of windows and keeps the definition structural. -/
def splitChunksAux (fuel : Nat) (cs : List Char) : List (List Char) :=
  match fuel with
  | 0 => [cs]
  | fuel + 1 =>
    if cs.length ≤ 800 then [cs]
    else cs.take 800 :: splitChunksAux fuel (cs.drop 700)

/-- Modelled from the spec: chunking of one document with maximum chunk
size 800 and overlap 100. -/
def splitChunks (cs : List Char) : List (List Char) :=
  splitChunksAux cs.length cs

/-- Concatenation of the chunks' non-overlapping portions: every chunk but
the last contributes its first 800 - 100 = 700 characters (its text minus
the part repeated at the start of its successor); the last chunk
contributes all of its text. -/
def reconstruct_chunks : List (List Char) → List Char
  | [] => []
  | [c] => c
  | c :: c2 :: rest => c.take 700 ++ reconstruct_chunks (c2 :: rest)

/-- Chunking of one document given as a string. -/
def chunk_document (d : String) : List String :=
  (splitChunks d.toList).map String.mk

/-- Embeds `chunk_and_store_to_vector_db` (vector_indexer.py, lines 63-92).
Directory traversal and file loading are external, so the loaded document
texts arrive as the `docs` parameter; the FAISS embedding call is external
and may fail (`embed_ok`); `stores` is the persisted map from vector-store
paths to their chunk lists.  Returns the updated store map and whether
chunking-and-embedding work was performed (`false` exactly in the
no-documents early return).  Note the function checks nothing about an
existing index at `vectorstore_path`: when it embeds successfully it
overwrites whatever was stored there. -/
def chunk_and_store_to_vector_db (docs : List String) (vectorstore_path : String)
    (stores : String → Option (List String)) (embed_ok : Bool) :
    (String → Option (List String)) × Bool :=
  let documents := (docs.map chunk_document).join
  if documents.isEmpty then (stores, false)
  else if embed_ok then
    ((fun p => if p = vectorstore_path then some documents else stores p), true)
  else (stores, true)

/-- Python `os.path.basename` for POSIX paths: the part after the last
slash. -/
def os_basename (path : String) : String :=
  String.mk ((split_on_char '/' path.toList).getLastD [])

/-- ASCII decimal digit test (the regex digit class on this input). -/
def is_digit (c : Char) : Bool := '0' ≤ c && c ≤ '9'

/-- Word character test for the regex word class (ASCII range). -/
def is_word_char (c : Char) : Bool := c.isAlphanum || c == '_'

/-- Leftmost match of `build_` followed by one or more digits
(`re.search` of the build-number pattern); returns the digit group. -/
def search_build_number : List Char → Option (List Char)
  | [] => none
  | c :: rest =>
    if "build_".toList.isPrefixOf (c :: rest) &&
       (match (c :: rest).drop 6 with
        | d :: _ => is_digit d
        | [] => false) then
      some (((c :: rest).drop 6).takeWhile is_digit)
    else search_build_number rest

/-- Leftmost match of eight digits, an underscore, and six digits
(`re.search` of the timestamp pattern); returns the 15-character group. -/
def search_timestamp : List Char → Option (List Char)
  | [] => none
  | c :: rest =>
    let cs := c :: rest
    let d8 := cs.take 8
    let mid := (cs.drop 8).take 1
    let d6 := (cs.drop 9).take 6
    if d8.length == 8 && d8.all is_digit && mid == ['_'] &&
       d6.length == 6 && d6.all is_digit then
      some (cs.take 15)
    else search_timestamp rest

/-- Leftmost match of `Started by user ` followed by at least one character
(`re.search`, the dot class stopping at a newline); returns the group, the
rest of that line. -/
def search_started_by : List Char → Option (List Char)
  | [] => none
  | c :: rest =>
    let cs := c :: rest
    if "Started by user ".toList.isPrefixOf cs &&
       (match cs.drop 16 with
        | d :: _ => !(d == '\n')
        | [] => false) then
      some ((cs.drop 16).takeWhile (fun d => !(d == '\n')))
    else search_started_by rest

/-- Leftmost match of `Finished: ` followed by at least one word character
(`re.search`); returns the word group. -/
def search_status : List Char → Option (List Char)
  | [] => none
  | c :: rest =>
    let cs := c :: rest
    if "Finished: ".toList.isPrefixOf cs &&
       (match cs.drop 10 with
        | d :: _ => is_word_char d
        | [] => false) then
      some ((cs.drop 10).takeWhile is_word_char)
    else search_status rest

/-- Numeric value of a digit string. -/
def digits_to_nat (ds : List Char) : Nat :=
  ds.foldl (fun acc c => acc * 10 + (c.toNat - 48)) 0

/-- Gregorian leap-year rule, as implemented by Python `datetime`. -/
def is_leap_year (y : Nat) : Bool :=
  (y % 4 == 0 && !(y % 100 == 0)) || y % 400 == 0

/-- Days in a month, as validated by the Python `datetime` constructor. -/
def days_in_month (y m : Nat) : Nat :=
  if m == 2 then (if is_leap_year y then 29 else 28)
  else if m == 4 || m == 6 || m == 9 || m == 11 then 30
  else 31

/-- Whether `datetime.strptime(ts, yyyymmdd_hhmmss-format)` succeeds on a
15-character timestamp candidate: the fixed-width split must name a real
calendar date and time (year at least 1, valid month, day within the month,
hour below 24, minute and second below 60). -/
def valid_datetime (ts : List Char) : Bool :=
  let y := digits_to_nat (ts.take 4)
  let mo := digits_to_nat ((ts.drop 4).take 2)
  let d := digits_to_nat ((ts.drop 6).take 2)
  let h := digits_to_nat ((ts.drop 9).take 2)
  let mi := digits_to_nat ((ts.drop 11).take 2)
  let s := digits_to_nat ((ts.drop 13).take 2)
  decide (1 ≤ y) && decide (1 ≤ mo) && decide (mo ≤ 12) &&
  decide (1 ≤ d) && decide (d ≤ days_in_month y mo) &&
  decide (h ≤ 23) && decide (mi ≤ 59) && decide (s ≤ 59)

/-- `dt.strftime` of the parsed timestamp in the output format used by the
code (`%Y-%m-%d %H:%M:%S`; glibc renders `%Y` without zero padding). -/
def format_datetime (ts : List Char) : String :=
  toString (digits_to_nat (ts.take 4)) ++ "-" ++
  String.mk ((ts.drop 4).take 2) ++ "-" ++
  String.mk ((ts.drop 6).take 2) ++ " " ++
  String.mk ((ts.drop 9).take 2) ++ ":" ++
  String.mk ((ts.drop 11).take 2) ++ ":" ++
  String.mk ((ts.drop 13).take 2)

/-- The build-metadata record assembled by
`JenkinsAnalyzer._extract_build_info`; a `none` field models a key absent
from the returned dict. -/
structure BuildInfo where
  build_number : Option String
  build_time : Option String
  started_by : Option String
  status : Option String
deriving DecidableEq

/-- Embeds `JenkinsAnalyzer._extract_build_info` (rag_pipeline.py, lines
399-432): build number and timestamp from the file name, actor and terminal
status from the body; a timestamp that matches the filename pattern but
fails to parse yields the marker string `Unknown`. -/
def extract_build_info (log_path : String) (log_content : String) : BuildInfo :=
  let filename := os_basename log_path
  let build_number := (search_build_number filename.toList).map String.mk
  let build_time :=
    match search_timestamp filename.toList with
    | some ts => if valid_datetime ts then some (format_datetime ts) else some "Unknown"
    | none => none
  let started_by := (search_started_by log_content.toList).map String.mk
  let status := (search_status log_content.toList).map String.mk
  ⟨build_number, build_time, started_by, status⟩

/-- The signature battery of `MongoDBAnalyzer` (mongodb_analyzer.py, lines
14-23); each entry is the literal part of one pattern, which the code
suffixes with a greedy dot-star and matches case-insensitively. -/
def mongodb_error_patterns : List String :=
  ["MongoServerSelectionError", "MongoNetworkError", "getaddrinfo ENOTFOUND",
   "Connection refused", "No primary available", "Server selection timeout",
   "Authentication failed", "Network is unreachable"]

/-- Header line of the specialized MongoDB analysis text. -/
def mongo_header : String := "## 🍃 MongoDB Connection Issue Analysis\n\n"

/-- DNS-resolution branch text of `_analyze_specific_error`
(mongodb_analyzer.py, lines 52-75). -/
def mongo_dns_text : String :=
  "**Root Cause**: DNS Resolution Failure\n" ++
  "- The application cannot resolve the MongoDB service hostname\n" ++
  "- This is typically a Kubernetes service discovery issue\n\n" ++
  "**Detailed Analysis**:\n" ++
  "1. **Service Discovery Issue**: The MongoDB service is not reachable via DNS\n" ++
  "2. **Network Policy**: There might be network policies blocking access\n" ++
  "3. **Service Configuration**: The MongoDB service might not be properly configured\n" ++
  "4. **Namespace Issues**: The service might be in a different namespace\n\n" ++
  "**Immediate Fix Steps**:\n" ++
  "```bash\n" ++
  "# 1. Check if MongoDB service exists\n" ++
  "kubectl get svc -n mongodb mongodb-central-stg-headless\n\n" ++
  "# 2. Check service endpoints\n" ++
  "kubectl get endpoints -n mongodb mongodb-central-stg-headless\n\n" ++
  "# 3. Test DNS resolution from a pod\n" ++
  "kubectl run test-dns --image=busybox --rm -it --restart=Never -- nslookup mongodb-central-stg-headless.mongodb.svc.cluster.local\n\n" ++
  "# 4. Check if MongoDB pods are running\n" ++
  "kubectl get pods -n mongodb -l app=mongodb\n\n" ++
  "# 5. Check network policies\n" ++
  "kubectl get networkpolicies -n mongodb\n" ++
  "```\n\n"

/-- Authentication branch text of `_analyze_specific_error`
(mongodb_analyzer.py, lines 78-87). -/
def mongo_auth_text : String :=
  "**Root Cause**: MongoDB Authentication Failure\n" ++
  "- The application cannot authenticate with MongoDB\n" ++
  "- This is typically a credentials or connection string issue\n\n" ++
  "**Fix Steps**:\n" ++
  "1. **Check Connection String**: Verify MongoDB connection string format\n" ++
  "2. **Verify Credentials**: Check username/password in environment variables\n" ++
  "3. **Check MongoDB Users**: Verify the user exists in MongoDB\n" ++
  "4. **Check Authentication Database**: Ensure correct auth database\n\n"

/-- Timeout branch text of `_analyze_specific_error` (mongodb_analyzer.py,
lines 90-99). -/
def mongo_timeout_text : String :=
  "**Root Cause**: MongoDB Connection Timeout\n" ++
  "- The application cannot establish connection to MongoDB within timeout\n" ++
  "- This could be due to network issues or MongoDB being overloaded\n\n" ++
  "**Fix Steps**:\n" ++
  "1. **Check MongoDB Health**: Verify MongoDB pods are healthy\n" ++
  "2. **Increase Timeout**: Adjust connection timeout settings\n" ++
  "3. **Check Network**: Verify network connectivity between pods\n" ++
  "4. **Check Resource Usage**: Ensure MongoDB has sufficient resources\n\n"

/-- Network-unreachable branch text of `_analyze_specific_error`
(mongodb_analyzer.py, lines 102-111). -/
def mongo_network_text : String :=
  "**Root Cause**: Network Connectivity Issue\n" ++
  "- The application cannot reach the MongoDB network\n" ++
  "- This is typically a Kubernetes networking issue\n\n" ++
  "**Fix Steps**:\n" ++
  "1. **Check Pod Network**: Verify pod can reach other services\n" ++
  "2. **Check Service Mesh**: If using Istio/Linkerd, check policies\n" ++
  "3. **Check Network Policies**: Verify no blocking policies\n" ++
  "4. **Check DNS**: Verify DNS resolution works\n\n"

/-- Fallback branch text of `_analyze_specific_error` (mongodb_analyzer.py,
lines 113-116). -/
def mongo_general_text : String :=
  "**Root Cause**: General MongoDB Connection Issue\n" ++
  "- The application cannot connect to MongoDB\n" ++
  "- This could be due to various network or configuration issues\n\n"

/-- Trailing common text of `_analyze_specific_error` (mongodb_analyzer.py,
lines 119-150): troubleshooting, prevention, priority and next steps. -/
def mongo_common_tail : String :=
  "**Common Troubleshooting Steps**:\n" ++
  "```bash\n" ++
  "# 1. Check MongoDB service status\n" ++
  "kubectl get svc -n mongodb\n\n" ++
  "# 2. Check MongoDB pods\n" ++
  "kubectl get pods -n mongodb\n\n" ++
  "# 3. Check MongoDB logs\n" ++
  "kubectl logs -n mongodb <mongodb-pod-name>\n\n" ++
  "# 4. Test connectivity from application pod\n" ++
  "kubectl exec -it <app-pod-name> -- nc -zv mongodb-central-stg-headless.mongodb.svc.cluster.local 27017\n\n" ++
  "# 5. Check if MongoDB is accessible\n" ++
  "kubectl exec -it <app-pod-name> -- telnet mongodb-central-stg-headless.mongodb.svc.cluster.local 27017\n" ++
  "```\n\n" ++
  "**Prevention Measures**:\n" ++
  "1. **Health Checks**: Implement proper health checks for MongoDB\n" ++
  "2. **Connection Pooling**: Use connection pooling to handle connection issues\n" ++
  "3. **Retry Logic**: Implement retry logic with exponential backoff\n" ++
  "4. **Monitoring**: Set up monitoring for MongoDB connectivity\n" ++
  "5. **Documentation**: Document MongoDB connection requirements\n\n" ++
  "**Priority**: High\n" ++
  "**Estimated Time**: 30-60 minutes\n" ++
  "**Impact**: Critical - Application cannot function without database\n\n" ++
  "**Next Steps**:\n" ++
  "1. Immediately check MongoDB service status\n" ++
  "2. Verify network connectivity between application and MongoDB\n" ++
  "3. Check MongoDB pod logs for any errors\n" ++
  "4. Test connectivity from application pod\n" ++
  "5. Update connection string if needed\n"

/-- Embeds `MongoDBAnalyzer._analyze_specific_error` (mongodb_analyzer.py,
lines 46-152): dispatch on a case-sensitive containment test over the
collected error strings, then the common tail.  The `log_content` argument
is accepted and unused, as in the source. -/
def analyze_specific_error (errors : List String) (log_content : String) : String :=
  let branch :=
    if errors.any (fun e => str_contains "getaddrinfo ENOTFOUND" e) then mongo_dns_text
    else if errors.any (fun e => str_contains "Authentication failed" e) then mongo_auth_text
    else if errors.any (fun e => str_contains "Server selection timeout" e) then mongo_timeout_text
    else if errors.any (fun e => str_contains "Network is unreachable" e) then mongo_network_text
    else mongo_general_text
  mongo_header ++ branch ++ mongo_common_tail

/-- Result dict of `MongoDBAnalyzer.analyze_mongodb_issue`; when
`is_mongodb_issue` is false the other keys are absent, modelled by their
empty defaults. -/
structure MongoAnalysis where
  is_mongodb_issue : Bool
  errors_found : List String
  analysis : String

/-- Embeds `MongoDBAnalyzer.analyze_mongodb_issue` (mongodb_analyzer.py,
lines 25-44): collect the IGNORECASE findall results of every signature
pattern; the issue is detected exactly when some pattern matched. -/
def analyze_mongodb_issue (log_content : String) : MongoAnalysis :=
  let mongodb_errors :=
    (mongodb_error_patterns.map (fun p => findall_ci [p] log_content)).join
  if mongodb_errors.isEmpty then ⟨false, [], ""⟩
  else ⟨true, mongodb_errors, analyze_specific_error mongodb_errors log_content⟩

/-- The error-pattern battery of `JenkinsAnalyzer._local_analysis`
(rag_pipeline.py, lines 242-259), each pattern given as its literal
segments (the code separates and terminates them with greedy dot-stars and
matches case-insensitively). -/
def local_error_patterns : List (List String) :=
  [["ERROR"], ["Exception"], ["Failed"], ["Error"], ["AuthenticationError"],
   ["401"], ["403"], ["500"], ["Build", "failed"], ["Step", "failed"],
   ["MongoDB"], ["MongoServerSelectionError"], ["MongoNetworkError"],
   ["getaddrinfo ENOTFOUND"], ["Docker", "Error"], ["ECR", "Error"]]

/-- Header line of the local analysis text (rag_pipeline.py, line 267). -/
def local_header : String := "## 🔍 Local Analysis Results\n\n"

/-- MongoDB fallthrough branch text of `_local_analysis` (rag_pipeline.py,
lines 280-298). -/
def local_mongo_text : String :=
  "**Root Cause**: MongoDB Connection Issue\n" ++
  "- The build failed due to MongoDB connection problems\n" ++
  "- Error: `getaddrinfo ENOTFOUND mongodb-central-stg-headless.mongodb.svc.cluster.local`\n" ++
  "- This indicates DNS resolution failure for MongoDB service\n\n" ++
  "**Fix Instructions**:\n" ++
  "1. Check if MongoDB service is running in the cluster\n" ++
  "2. Verify DNS resolution for MongoDB service\n" ++
  "3. Check network connectivity between pods\n" ++
  "4. Verify MongoDB service configuration\n" ++
  "5. Check if the MongoDB service name is correct\n\n" ++
  "**Specific MongoDB Fix**:\n" ++
  "1. Check if MongoDB service exists: `kubectl get svc -n mongodb`\n" ++
  "2. Verify DNS resolution: `nslookup mongodb-central-stg-headless.mongodb.svc.cluster.local`\n" ++
  "3. Check pod connectivity: `kubectl exec -it <pod-name> -- nslookup mongodb-central-stg-headless.mongodb.svc.cluster.local`\n" ++
  "4. Verify MongoDB service configuration in Kubernetes\n" ++
  "5. Check if MongoDB pods are running: `kubectl get pods -n mongodb`\n" ++
  "6. Check MongoDB service endpoints: `kubectl get endpoints -n mongodb mongodb-central-stg-headless`\n" ++
  "7. Verify network policies: `kubectl get networkpolicies -n mongodb`\n" ++
  "8. Check if MongoDB is accessible from the build pod\n\n"

/-- Authentication branch text of `_local_analysis` (rag_pipeline.py,
lines 300-303). -/
def local_auth_text : String :=
  "**Root Cause**: Authentication/API Key Error\n" ++
  "- The build failed due to an authentication error\n" ++
  "- This is likely related to API keys or credentials\n" ++
  "- Check environment variables and API key configuration\n\n"

/-- Node branch text of `_local_analysis` (rag_pipeline.py, lines 305-308). -/
def local_npm_text : String :=
  "**Root Cause**: Node.js/npm Dependency Issue\n" ++
  "- The build failed during npm install or node execution\n" ++
  "- Check package.json and node_modules\n" ++
  "- Verify all dependencies are properly specified\n\n"

/-- Docker branch text of `_local_analysis` (rag_pipeline.py, lines 310-314). -/
def local_docker_text : String :=
  "**Root Cause**: Docker/Container Issue\n" ++
  "- The build failed during Docker operations\n" ++
  "- Check Dockerfile and container configuration\n" ++
  "- Verify Docker daemon is running\n" ++
  "- Check ECR access and permissions\n\n"

/-- Git branch text of `_local_analysis` (rag_pipeline.py, lines 316-319). -/
def local_git_text : String :=
  "**Root Cause**: Git Repository Issue\n" ++
  "- The build failed during Git operations\n" ++
  "- Check repository access and credentials\n" ++
  "- Verify branch names and commit hashes\n\n"

/-- Unknown-category branch text of `_local_analysis` (rag_pipeline.py,
lines 321-323). -/
def local_general_text : String :=
  "**Root Cause**: General Build Failure\n" ++
  "- The build failed for an unknown reason\n" ++
  "- Check the error logs for specific details\n\n"

/-- Closing text of `_local_analysis` (rag_pipeline.py, lines 338-348). -/
def local_tail : String :=
  "**General Fix Suggestions**:\n" ++
  "1. Check environment variables and API keys\n" ++
  "2. Verify repository access and permissions\n" ++
  "3. Review build configuration files\n" ++
  "4. Check for dependency conflicts\n" ++
  "5. Verify network connectivity\n\n" ++
  "**Priority**: High\n" ++
  "**Estimated Time**: 30-60 minutes\n\n" ++
  "*Note: This is a local analysis. For more detailed AI-powered analysis, please set up Azure OpenAI API key.*"

/-- The analysis dict returned by the pipeline; `none` fields model keys
absent from the dict returned by the corresponding code path. -/
structure AnalysisResult where
  analysis : String
  failure_repos : List String
  success_repos : List String
  failure_log_path : Option String
  success_log_path : Option String
  analysis_type : String
  build_info : Option BuildInfo
  repository_context_used : Option Bool

/-- Assembly of the `_local_analysis` result for the non-specialized paths
(rag_pipeline.py, lines 267 and 325-355): header, category branch text,
repositories section, error details capped at five entries, and the
generic tail, tagged as the `local` analysis type. -/
def local_finish (failure_repos success_repos errors_found : List String)
    (branch_text : String) : AnalysisResult :=
  { analysis :=
      local_header ++ branch_text ++
      ("**Repositories Involved**:\n" ++
       "- Failure repos: " ++ String.intercalate ", " failure_repos ++ "\n" ++
       "- Success repos: " ++ String.intercalate ", " success_repos ++ "\n\n") ++
      (if errors_found.isEmpty then ""
       else "**Error Details**:\n" ++
         String.join ((errors_found.take 5).map (fun e => "- " ++ e ++ "\n")) ++ "\n") ++
      local_tail
    failure_repos := failure_repos
    success_repos := success_repos
    failure_log_path := none
    success_log_path := none
    analysis_type := "local"
    build_info := none
    repository_context_used := none }

/-- Embeds `JenkinsAnalyzer._local_analysis` (rag_pipeline.py, lines
238-355): collect error lines, then a first-match-wins category chain.  In
the MongoDB category the specialized analyzer is consulted again and its
result returned when it detects an issue; `success_content` is accepted
and, as in the source, not used by the analysis text. -/
def local_analysis (failure_content success_content : String)
    (failure_repos success_repos : List String) : AnalysisResult :=
  let errors_found :=
    (local_error_patterns.map (fun p => findall_ci p failure_content)).join
  let lower := failure_content.toList.map Char.toLower
  if str_contains "MongoServerSelectionError" failure_content ||
     str_contains "MongoNetworkError" failure_content ||
     str_contains "getaddrinfo ENOTFOUND" failure_content then
    let mongodb_analysis := analyze_mongodb_issue failure_content
    if mongodb_analysis.is_mongodb_issue then
      { analysis := mongodb_analysis.analysis
        failure_repos := failure_repos
        success_repos := success_repos
        failure_log_path := none
        success_log_path := none
        analysis_type := "mongodb_specialized"
        build_info := none
        repository_context_used := none }
    else local_finish failure_repos success_repos errors_found local_mongo_text
  else if str_contains "AuthenticationError" failure_content ||
          str_contains "401" failure_content then
    local_finish failure_repos success_repos errors_found local_auth_text
  else if occursIn "npm".toList lower || occursIn "node".toList lower then
    local_finish failure_repos success_repos errors_found local_npm_text
  else if occursIn "docker".toList lower || occursIn "ecr".toList lower then
    local_finish failure_repos success_repos errors_found local_docker_text
  else if occursIn "git".toList lower then
    local_finish failure_repos success_repos errors_found local_git_text
  else
    local_finish failure_repos success_repos errors_found local_general_text

/-- Python `repr` of a list of strings, as interpolated by an f-string. -/
def py_repr_list (l : List String) : String :=
  "[" ++ String.intercalate ", " (l.map (fun s => "\x27" ++ s ++ "\x27")) ++ "]"

/-- Exception value propagating out of `analyze_failure` when the failure
log cannot be opened. -/
inductive PyError where
  | fileNotFound : String → PyError
deriving DecidableEq

/-- External collaborators of `JenkinsAnalyzer`: the file system, whether a
generative model was configured at construction time, the generative
model's answer to a prompt (`Except.error` models a raised exception during
`invoke`), and the retrieved repository context produced by
`_get_repository_context` from the vector stores. -/
structure PipelineEnv where
  fs : String → Option String
  llm_configured : Bool
  llm_response : String → Except Unit String
  repo_context : List String → String → String

/-- Embeds the prompt f-string of `analyze_failure` (rag_pipeline.py, lines
148-181); the indentation whitespace of the Python triple-quoted literal is
not reproduced. -/
def build_analysis_prompt (failure_log_path failure_content success_content : String)
    (failure_repos success_repos : List String) (build_info : BuildInfo)
    (repo_context : String) : String :=
  "\nAnalyze this Jenkins build failure and provide a comprehensive solution using the repository context.\n\n" ++
  "BUILD INFORMATION:\n" ++
  "- Build File: " ++ os_basename failure_log_path ++ "\n" ++
  "- Build Number: " ++ build_info.build_number.getD "Unknown" ++ "\n" ++
  "- Build Time: " ++ build_info.build_time.getD "Unknown" ++ "\n\n" ++
  "REPOSITORIES INVOLVED:\n" ++
  "Failure repos: " ++ py_repr_list failure_repos ++ "\n" ++
  "Success repos: " ++ py_repr_list success_repos ++ "\n\n" ++
  "FAILURE LOG (first 2000 chars):\n" ++
  failure_content.take 2000 ++ "...\n\n" ++
  "SUCCESS LOG (for comparison, first 1000 chars):\n" ++
  (if success_content == "" then "No success log available" else success_content.take 1000) ++ "...\n\n" ++
  "REPOSITORY CONTEXT:\n" ++ repo_context ++ "\n\n" ++
  "Please provide a comprehensive analysis using the repository context:\n" ++
  "1. **Root Cause Analysis**: What caused the build to fail? Use repository context to understand the codebase.\n" ++
  "2. **Error Details**: Specific error messages and their meaning in the context of the codebase.\n" ++
  "3. **Fix Instructions**: Step-by-step solution based on the repository structure and code.\n" ++
  "4. **Code Changes**: Specific code modifications needed, referencing actual files and functions.\n" ++
  "5. **Configuration Changes**: Any configuration or environment changes needed.\n" ++
  "6. **Prevention**: How to prevent this in future builds based on the codebase patterns.\n" ++
  "7. **Priority**: High/Medium/Low priority for fixing.\n" ++
  "8. **Estimated Time**: How long the fix will take.\n" ++
  "9. **Build-Specific Notes**: Any notes specific to this build and codebase.\n\n" ++
  "Use the repository context to provide specific, actionable solutions that are relevant to this codebase.\n"

/-- Embeds `JenkinsAnalyzer.analyze_failure` (rag_pipeline.py, lines
98-198).  Reading a missing or unreadable failure log raises (modelled by
`Except.error`); the optional comparison log is read only if it exists.
The tiers follow the source: the MongoDB specialized analysis is consulted
first and terminates the pipeline when it detects an issue; otherwise the
generative tier runs only when a model is configured, and any exception
from it falls back to `_local_analysis`. -/
def analyze_failure (env : PipelineEnv) (failure_log_path : String)
    (success_log_path : Option String) : Except PyError AnalysisResult :=
  match env.fs failure_log_path with
  | none => .error (.fileNotFound failure_log_path)
  | some failure_content =>
    let success_content :=
      match success_log_path with
      | some p => (env.fs p).getD ""
      | none => ""
    let failure_repos := rag_extract_repos env.fs failure_log_path
    let success_repos :=
      match success_log_path with
      | some p => rag_extract_repos env.fs p
      | none => []
    let mongodb_analysis := analyze_mongodb_issue failure_content
    if mongodb_analysis.is_mongodb_issue then
      let build_info := extract_build_info failure_log_path failure_content
      let enhanced :=
        mongodb_analysis.analysis ++
        "\n\n**Build Information**:\n" ++
        "- Build File: " ++ os_basename failure_log_path ++ "\n" ++
        "- Build Number: " ++ build_info.build_number.getD "Unknown" ++ "\n" ++
        "- Build Time: " ++ build_info.build_time.getD "Unknown" ++ "\n" ++
        "- Repositories: " ++ String.intercalate ", " failure_repos ++ "\n"
      .ok { analysis := enhanced
            failure_repos := failure_repos
            success_repos := success_repos
            failure_log_path := some failure_log_path
            success_log_path := success_log_path
            analysis_type := "mongodb_specialized"
            build_info := some build_info
            repository_context_used := none }
    else if !env.llm_configured then
      .ok (local_analysis failure_content success_content failure_repos success_repos)
    else
      let build_info := extract_build_info failure_log_path failure_content
      let repo_ctx := env.repo_context failure_repos failure_content
      let prompt := build_analysis_prompt failure_log_path failure_content success_content
        failure_repos success_repos build_info repo_ctx
      match env.llm_response prompt with
      | .ok resp =>
        .ok { analysis := resp
              failure_repos := failure_repos
              success_repos := success_repos
              failure_log_path := some failure_log_path
              success_log_path := success_log_path
              analysis_type := "azure_openai_with_context"
              build_info := some build_info
              repository_context_used := some true }
      | .error _ =>
        .ok (local_analysis failure_content success_content failure_repos success_repos)

theorem foldl_add_absent_mem (rs : List String) (l : List String) (r : String)
    (h : r ∈ rs ∨ r ∈ l) :
    r ∈ rs.foldl (fun acc repo => if repo ∈ acc then acc else acc ++ [repo]) l := by
  induction rs generalizing l with
  | nil =>
    simpa using h.resolve_left (by simp)
  | cons x rest ih =>
    simp only [List.foldl_cons]
    apply ih
    rcases h with h | h
    · rcases List.mem_cons.mp h with rfl | h
      · right
        split
        · assumption
        · exact List.mem_append.mpr (Or.inr (by simp))
      · left; exact h
    · right
      split
      · exact h
      · exact List.mem_append.mpr (Or.inl h)

theorem foldl_add_absent_nodup (rs : List String) (l : List String) (h : l.Nodup) :
    (rs.foldl (fun acc repo => if repo ∈ acc then acc else acc ++ [repo]) l).Nodup := by
  induction rs generalizing l with
  | nil => simpa using h
  | cons x rest ih =>
    simp only [List.foldl_cons]
    apply ih
    split
    · exact h
    · next hx =>
      simp [List.nodup_append, h, hx]

theorem foldl_add_absent_all (P : String → Prop) (rs : List String) (l : List String)
    (hl : ∀ x ∈ l, P x) (hrs : ∀ x ∈ rs, P x) :
    ∀ x ∈ rs.foldl (fun acc repo => if repo ∈ acc then acc else acc ++ [repo]) l, P x := by
  induction rs generalizing l with
  | nil => simpa using hl
  | cons y rest ih =>
    simp only [List.foldl_cons]
    apply ih
    · intro x hx
      split at hx
      · exact hl x hx
      · rcases List.mem_append.mp hx with hx | hx
        · exact hl x hx
        · simp only [List.mem_singleton] at hx
          exact hx ▸ hrs y (by simp)
    · intro x hx
      exact hrs x (List.mem_cons_of_mem _ hx)

/-- C4 (amended): for every input log, `extract_repos_from_log`
(jenkins_fetch_and_vectorize.py) returns a duplicate-free list whose every
element matches the validation shape: https scheme, github.com host, at
least 5 slash-separated segments, the .git suffix, and no api-style path.
(The rag_pipeline extractor, by contrast, performs no such validation; see
its counterexample.) -/
theorem c4_extractor_validation_amended (fs : String → Option String) (log_path : String) :
    (extract_repos_from_log fs log_path).Nodup ∧
    ∀ r ∈ extract_repos_from_log fs log_path, valid_repo_check r = true := by
  unfold extract_repos_from_log
  cases fs log_path with
  | none => simp
  | some content =>
    dsimp only
    constructor
    · exact foldl_add_absent_nodup _ _ ((List.nodup_dedup _).filter _)
    · apply foldl_add_absent_all
      · intro x hx
        exact (List.mem_filter.mp hx).2
      · intro x hx
        simp only [additional_repos, List.mem_cons, List.not_mem_nil, or_false] at hx
        rcases hx with rfl | rfl | rfl <;> decide

/-- C4 counterexample: the claim as stated fails for the other cited
extractor, `JenkinsAnalyzer._extract_repos_from_log` (rag_pipeline.py): on
a log whose text is `https://example.com/a.git` it returns that reference,
which does not match the validation shape (wrong host). -/
theorem c4_extractor_validation_counterexample :
    rag_extract_repos
        (fun p => if p = "log.txt" then some "https://example.com/a.git" else none)
        "log.txt" = ["https://example.com/a.git"] ∧
    valid_repo_check "https://example.com/a.git" = false := by
  constructor
  · decide
  · decide

/-- C5: for every log path whose read raises (modelled by an absent file
-system entry), both repository extractors return the empty list rather
than propagating the error. -/
theorem c5_extractor_error_returns_empty (fs : String → Option String) (log_path : String)
    (h : fs log_path = none) :
    extract_repos_from_log fs log_path = [] ∧ rag_extract_repos fs log_path = [] := by
  unfold extract_repos_from_log rag_extract_repos
  rw [h]
  exact ⟨rfl, rfl⟩

theorem c5_extractor_error_returns_empty_witness :
    extract_repos_from_log (fun _ => none) "missing.txt" = [] ∧
    rag_extract_repos (fun _ => none) "missing.txt" = [] :=
  c5_extractor_error_returns_empty (fun _ => none) "missing.txt" rfl

/-- C10: for every readable log, `extract_repos_from_log`
(jenkins_fetch_and_vectorize.py) appends the three fixed supplemental
repository URLs whenever they are not already present, so its result
contains all three and is never empty. -/
theorem c10_supplemental_repos_always_present (fs : String → Option String)
    (log_path : String) (content : String) (h : fs log_path = some content) :
    "https://github.com/Meesho/devops-lib.git" ∈ extract_repos_from_log fs log_path ∧
    "https://github.com/Meesho/ringmaster-backend.git" ∈ extract_repos_from_log fs log_path ∧
    "https://github.com/Meesho/ringmaster-frontend.git" ∈ extract_repos_from_log fs log_path ∧
    extract_repos_from_log fs log_path ≠ [] := by
  have h1 : "https://github.com/Meesho/devops-lib.git" ∈ extract_repos_from_log fs log_path := by
    unfold extract_repos_from_log
    rw [h]
    exact foldl_add_absent_mem _ _ _ (Or.inl (by simp [additional_repos]))
  refine ⟨h1, ?_, ?_, List.ne_nil_of_mem h1⟩
  · unfold extract_repos_from_log
    rw [h]
    exact foldl_add_absent_mem _ _ _ (Or.inl (by simp [additional_repos]))
  · unfold extract_repos_from_log
    rw [h]
    exact foldl_add_absent_mem _ _ _ (Or.inl (by simp [additional_repos]))

theorem c10_supplemental_repos_always_present_witness :
    "https://github.com/Meesho/devops-lib.git" ∈ extract_repos_from_log (fun _ => some "no repos here") "log.txt" ∧
    "https://github.com/Meesho/ringmaster-backend.git" ∈ extract_repos_from_log (fun _ => some "no repos here") "log.txt" ∧
    "https://github.com/Meesho/ringmaster-frontend.git" ∈ extract_repos_from_log (fun _ => some "no repos here") "log.txt" ∧
    extract_repos_from_log (fun _ => some "no repos here") "log.txt" ≠ [] :=
  c10_supplemental_repos_always_present (fun _ => some "no repos here") "log.txt" "no repos here" rfl

/-- C6 counterexample: the claim as stated ("calling clone twice performs
at most one actual fetch") fails when the first fetch fails: the target
directory is not materialized, so the second call runs the fetch again —
two fetches in total. -/
theorem c6_clone_counterexample :
    (clone_repository ⟨fun _ => FetchOutcome.failure⟩ "u" "d"
        (clone_repository ⟨fun _ => FetchOutcome.failure⟩ "u" "d" ⟨[], 0⟩).2).2.fetch_count = 2 ∧
    ¬ (2 ≤ 1) := by
  constructor
  · decide
  · decide

/-- C6 (amended): if the first `clone_repository` call reports success,
the second call with the same URL and target slot reports success and
performs no fetch, so the pair performs at most one actual fetch; a failed
first call, however, is retried by the second call. -/
theorem c6_clone_idempotent_amended (env : CloneEnv) (url dir : String) (st : CloneState)
    (h : (clone_repository env url dir st).1 = true) :
    (clone_repository env url dir (clone_repository env url dir st).2).1 = true ∧
    (clone_repository env url dir (clone_repository env url dir st).2).2.fetch_count
      = (clone_repository env url dir st).2.fetch_count ∧
    (clone_repository env url dir st).2.fetch_count ≤ st.fetch_count + 1 := by
  by_cases hd : dir ∈ st.existing_dirs
  · simp [clone_repository, hd]
  · cases hf : env.fetch_result st.fetch_count with
    | success => simp [clone_repository, hd, hf]
    | failure => simp [clone_repository, hd, hf] at h
    | timeout => simp [clone_repository, hd, hf] at h

theorem c6_clone_idempotent_amended_witness :
    (clone_repository ⟨fun _ => FetchOutcome.success⟩ "https://github.com/o/r.git" "cloned_repos/r" ⟨[], 0⟩).1 = true ∧
    ((clone_repository ⟨fun _ => FetchOutcome.success⟩ "https://github.com/o/r.git" "cloned_repos/r"
        (clone_repository ⟨fun _ => FetchOutcome.success⟩ "https://github.com/o/r.git" "cloned_repos/r" ⟨[], 0⟩).2).1 = true ∧
      (clone_repository ⟨fun _ => FetchOutcome.success⟩ "https://github.com/o/r.git" "cloned_repos/r"
        (clone_repository ⟨fun _ => FetchOutcome.success⟩ "https://github.com/o/r.git" "cloned_repos/r" ⟨[], 0⟩).2).2.fetch_count
        = (clone_repository ⟨fun _ => FetchOutcome.success⟩ "https://github.com/o/r.git" "cloned_repos/r" ⟨[], 0⟩).2.fetch_count ∧
      (clone_repository ⟨fun _ => FetchOutcome.success⟩ "https://github.com/o/r.git" "cloned_repos/r" ⟨[], 0⟩).2.fetch_count ≤ 0 + 1) :=
  ⟨by decide,
   c6_clone_idempotent_amended ⟨fun _ => FetchOutcome.success⟩ "https://github.com/o/r.git" "cloned_repos/r" ⟨[], 0⟩ (by decide)⟩

theorem splitChunksAux_ne_nil (fuel : Nat) (cs : List Char) : splitChunksAux fuel cs ≠ [] := by
  cases fuel with
  | zero => simp [splitChunksAux]
  | succ n =>
    simp only [splitChunksAux]
    split <;> simp

theorem reconstruct_splitChunksAux (fuel : Nat) :
    ∀ cs : List Char, cs.length ≤ fuel →
    reconstruct_chunks (splitChunksAux fuel cs) = cs := by
  induction fuel with
  | zero =>
    intro cs _
    simp [splitChunksAux, reconstruct_chunks]
  | succ n ih =>
    intro cs h
    simp only [splitChunksAux]
    split
    · simp [reconstruct_chunks]
    · next hlen =>
      obtain ⟨d, ds, hds⟩ : ∃ d ds, splitChunksAux n (cs.drop 700) = d :: ds := by
        rcases hE : splitChunksAux n (cs.drop 700) with _ | ⟨d, ds⟩
        · exact absurd hE (splitChunksAux_ne_nil _ _)
        · exact ⟨d, ds, rfl⟩
      rw [hds]
      show (cs.take 800).take 700 ++ reconstruct_chunks (d :: ds) = cs
      rw [← hds, ih (cs.drop 700) (by simp only [List.length_drop]; omega), List.take_take]
      norm_num

theorem length_splitChunksAux (fuel : Nat) :
    ∀ cs : List Char, cs.length ≤ fuel →
    ∀ c ∈ splitChunksAux fuel cs, c.length ≤ 800 := by
  induction fuel with
  | zero =>
    intro cs h c hc
    simp only [splitChunksAux, List.mem_singleton] at hc
    subst hc
    omega
  | succ n ih =>
    intro cs h c hc
    simp only [splitChunksAux] at hc
    split at hc
    · next hle =>
      simp only [List.mem_singleton] at hc
      subst hc
      exact hle
    · next hgt =>
      rcases List.mem_cons.mp hc with rfl | hc
      · simp only [List.length_take]
        omega
      · exact ih (cs.drop 700) (by simp only [List.length_drop]; omega) c hc

theorem head_splitChunksAux (fuel : Nat) (cs : List Char)
    (h100 : 100 ≤ cs.length) (hfuel : cs.length ≤ fuel) :
    ∃ d ds, splitChunksAux fuel cs = d :: ds ∧ d.take 100 = cs.take 100 ∧ 100 ≤ d.length := by
  cases fuel with
  | zero => omega
  | succ n =>
    simp only [splitChunksAux]
    split
    · exact ⟨cs, [], rfl, rfl, h100⟩
    · next hgt =>
      refine ⟨cs.take 800, _, rfl, ?_, ?_⟩
      · rw [List.take_take]
        norm_num
      · simp only [List.length_take]
        omega

theorem chain_splitChunksAux (fuel : Nat) :
    ∀ cs : List Char, cs.length ≤ fuel →
    List.Chain' (fun a b => a.length = 800 ∧ a.drop 700 = b.take 100 ∧ 100 ≤ b.length)
      (splitChunksAux fuel cs) := by
  induction fuel with
  | zero =>
    intro cs _
    simp [splitChunksAux]
  | succ n ih =>
    intro cs h
    simp only [splitChunksAux]
    split
    · simp
    · next hgt =>
      obtain ⟨d, ds, hds, hdtake, hdlen⟩ :=
        head_splitChunksAux n (cs.drop 700)
          (by simp only [List.length_drop]; omega)
          (by simp only [List.length_drop]; omega)
      rw [List.chain'_cons']
      constructor
      · intro b hb
        rw [hds] at hb
        simp only [List.head?_cons, Option.mem_def, Option.some.injEq] at hb
        subst hb
        refine ⟨by simp only [List.length_take]; omega, ?_, hdlen⟩
        rw [List.drop_take]
        norm_num
        rw [hdtake]
      · exact ih (cs.drop 700) (by simp only [List.length_drop]; omega)

/-- C7 counterexample: `chunk_and_store_to_vector_db` is not a no-op when
an index already exists at the path — with an index holding `OLD` persisted
at `vs`, a build request with documents re-embeds (`true` work flag) and
overwrites the stored chunks. -/
theorem c7_build_counterexample :
    (chunk_and_store_to_vector_db ["hello"] "vs"
        (fun p => if p = "vs" then some ["OLD"] else none) true).2 = true ∧
    (chunk_and_store_to_vector_db ["hello"] "vs"
        (fun p => if p = "vs" then some ["OLD"] else none) true).1 "vs" = some ["hello"] ∧
    some ["hello"] ≠ some ["OLD"] := by
  refine ⟨by decide, by decide, by decide⟩

/-- C7 (amended): `chunk_and_store_to_vector_db` never checks for an
existing index: whenever it loads at least one document chunk and the
embedding succeeds it performs the work and persists the fresh chunks at
`vectorstore_path`, overwriting whatever was stored there; the only no-op
case is an empty document set. -/
theorem c7_build_overwrites_amended (docs : List String) (vpath : String)
    (stores : String → Option (List String))
    (h : ((docs.map chunk_document).join).isEmpty = false) :
    (chunk_and_store_to_vector_db docs vpath stores true).1 vpath
      = some ((docs.map chunk_document).join) ∧
    (chunk_and_store_to_vector_db docs vpath stores true).2 = true := by
  unfold chunk_and_store_to_vector_db
  simp [h]

theorem c7_build_overwrites_amended_witness :
    (((["hello"].map chunk_document).join).isEmpty = false) ∧
    ((chunk_and_store_to_vector_db ["hello"] "vs" (fun _ => none) true).1 "vs"
      = some ((["hello"].map chunk_document).join) ∧
    (chunk_and_store_to_vector_db ["hello"] "vs" (fun _ => none) true).2 = true) :=
  ⟨by decide, c7_build_overwrites_amended ["hello"] "vs" (fun _ => none) (by decide)⟩

/-- C8: for every document, the spec-modelled chunker with maximum size 800
and overlap 100 satisfies: concatenating the chunks' non-overlapping
portions reconstructs the document; every chunk has length at most 800 (so
in particular every non-last chunk does, and only the last may be shorter);
and each consecutive pair overlaps by 100 characters — the predecessor is
full-sized and its last 100 characters (its drop at 700) are the first 100
characters of its successor, which has at least 100 characters. -/
theorem c8_chunker_properties (cs : List Char) :
    reconstruct_chunks (splitChunks cs) = cs ∧
    (∀ c ∈ splitChunks cs, c.length ≤ 800) ∧
    List.Chain' (fun a b => a.length = 800 ∧ a.drop 700 = b.take 100 ∧ 100 ≤ b.length)
      (splitChunks cs) :=
  ⟨reconstruct_splitChunksAux cs.length cs le_rfl,
   length_splitChunksAux cs.length cs le_rfl,
   chain_splitChunksAux cs.length cs le_rfl⟩

/-- C9: `_extract_build_info` is total and degrades instead of raising:
every field whose pattern does not match is left absent from the result,
and a filename timestamp that matches the pattern but fails to parse as a
datetime yields the explicit marker `Unknown` for the build time. -/
theorem c9_build_info_error_handling (log_path content : String) (ts : List Char)
    (hts : search_timestamp (os_basename log_path).toList = some ts)
    (hvalid : valid_datetime ts = false)
    (hbn : search_build_number (os_basename log_path).toList = none)
    (hsb : search_started_by content.toList = none)
    (hst : search_status content.toList = none) :
    extract_build_info log_path content = ⟨none, some "Unknown", none, none⟩ := by
  unfold extract_build_info
  dsimp only
  rw [hts, hbn, hsb, hst]
  simp [hvalid]

theorem c9_build_info_error_handling_witness :
    extract_build_info "20250231_126161.txt" "hello" = ⟨none, some "Unknown", none, none⟩ :=
  c9_build_info_error_handling "20250231_126161.txt" "hello" "20250231_126161".toList
    (by decide) (by decide) (by decide) (by decide) (by decide)

theorem prefixCI_of_isPrefixOf : ∀ (lit cs : List Char), lit.isPrefixOf cs = true → prefixCI lit cs = true := by
  intro lit
  induction lit with
  | nil => intro cs _; rfl
  | cons a as ih =>
    intro cs h
    cases cs with
    | nil => simp [List.isPrefixOf] at h
    | cons b bs =>
      simp only [List.isPrefixOf, Bool.and_eq_true] at h
      have hab : a = b := eq_of_beq h.1
      simp only [prefixCI, Bool.and_eq_true]
      exact ⟨by simp [eqCI, hab], ih bs h.2⟩

theorem occursInCI_of_occursIn (lit : List Char) :
    ∀ cs : List Char, occursIn lit cs = true → occursInCI lit cs = true := by
  intro cs
  induction cs with
  | nil =>
    intro h
    cases lit with
    | nil => rfl
    | cons a as => simp [occursIn, List.isEmpty] at h
  | cons c rest ih =>
    intro h
    simp only [occursIn, Bool.or_eq_true] at h
    simp only [occursInCI, Bool.or_eq_true]
    rcases h with h | h
    · exact Or.inl (prefixCI_of_isPrefixOf _ _ h)
    · exact Or.inr (ih h)

theorem split_on_char_head (sep : Char) (cs : List Char) :
    ∃ t, split_on_char sep cs = (cs.takeWhile (fun c => !(c == sep))) :: t := by
  induction cs with
  | nil => exact ⟨[], rfl⟩
  | cons c rest ih =>
    cases hc : (c == sep) with
    | true =>
      refine ⟨split_on_char sep rest, ?_⟩
      simp [split_on_char, hc, List.takeWhile_cons]
    | false =>
      obtain ⟨t, ht⟩ := ih
      refine ⟨t, ?_⟩
      simp [split_on_char, hc, ht, List.takeWhile_cons]

theorem isPrefixOf_takeWhile_of_not_mem (sep : Char) : ∀ (lit cs : List Char),
    lit.isPrefixOf cs = true → sep ∉ lit →
    lit.isPrefixOf (cs.takeWhile (fun c => !(c == sep))) = true := by
  intro lit
  induction lit with
  | nil => intro cs _ _; cases cs.takeWhile (fun c => !(c == sep)) <;> rfl
  | cons a as ih =>
    intro cs h hmem
    cases cs with
    | nil => simp [List.isPrefixOf] at h
    | cons b bs =>
      simp only [List.isPrefixOf, Bool.and_eq_true] at h
      have hab : a = b := eq_of_beq h.1
      have hbsep : (b == sep) = false := by
        rw [beq_eq_false_iff_ne]
        intro he
        exact hmem (by rw [hab, he]; exact List.mem_cons_self _ _)
      rw [List.takeWhile_cons]
      simp only [hbsep, Bool.not_false, if_true]
      simp only [List.isPrefixOf, Bool.and_eq_true]
      exact ⟨h.1, ih bs h.2 (fun hm => hmem (List.mem_cons_of_mem _ hm))⟩

theorem occursIn_of_isPrefixOf (lit cs : List Char) (h : lit.isPrefixOf cs = true) :
    occursIn lit cs = true := by
  cases cs with
  | nil =>
    cases lit with
    | nil => rfl
    | cons a as => simp [List.isPrefixOf] at h
  | cons c rest => simp [occursIn, h]

theorem occursIn_line_of_occursIn (lit : List Char) (hnl : '\n' ∉ lit) :
    ∀ cs : List Char, occursIn lit cs = true →
    ∃ line ∈ split_on_char '\n' cs, occursIn lit line = true := by
  intro cs
  induction cs with
  | nil =>
    intro h
    exact ⟨[], by simp [split_on_char], h⟩
  | cons c rest ih =>
    intro h
    simp only [occursIn, Bool.or_eq_true] at h
    rcases h with h | h
    · obtain ⟨t, ht⟩ := split_on_char_head '\n' (c :: rest)
      refine ⟨(c :: rest).takeWhile (fun d => !(d == '\n')), by rw [ht]; exact List.mem_cons_self _ _, ?_⟩
      exact occursIn_of_isPrefixOf _ _ (isPrefixOf_takeWhile_of_not_mem '\n' lit (c :: rest) h hnl)
    · obtain ⟨line, hmem, hocc⟩ := ih h
      cases hcb : (c == '\n') with
      | true =>
        refine ⟨line, ?_, hocc⟩
        simp only [split_on_char, hcb, if_true]
        exact List.mem_cons_of_mem _ hmem
      | false =>
        obtain ⟨t, ht⟩ := split_on_char_head '\n' rest
        rw [ht] at hmem
        rcases List.mem_cons.mp hmem with rfl | hmem
        · refine ⟨c :: rest.takeWhile (fun d => !(d == '\n')), ?_, ?_⟩
          · simp only [split_on_char, hcb, ht]
            exact List.mem_cons_self _ _
          · simp [occursIn, hocc]
        · refine ⟨line, ?_, hocc⟩
          simp only [split_on_char, hcb, ht]
          exact List.mem_cons_of_mem _ hmem

theorem lineMatchIdx_isSome_of_occursInCI (lit : List Char) :
    ∀ line : List Char, occursInCI lit line = true →
    (lineMatchIdx [lit] line).isSome = true := by
  intro line
  induction line with
  | nil =>
    intro h
    simp only [occursInCI] at h
    simp [lineMatchIdx, matchAtCI, matchSeqCI, h]
  | cons c rest ih =>
    intro h
    simp only [occursInCI, Bool.or_eq_true] at h
    simp only [lineMatchIdx]
    rcases h with h | h
    · rw [if_pos (by simp [matchAtCI, matchSeqCI, h])]
      rfl
    · split
      · rfl
      · have hs := ih h
        cases hL : lineMatchIdx [lit] rest with
        | none => rw [hL] at hs; simp at hs
        | some p => rfl

theorem findall_ci_ne_nil_of_occursIn (lit : String) (content : String)
    (hnl : '\n' ∉ lit.toList)
    (h : occursIn lit.toList content.toList = true) :
    findall_ci [lit] content ≠ [] := by
  obtain ⟨line, hmem, hocc⟩ := occursIn_line_of_occursIn lit.toList hnl content.toList h
  intro hnil
  unfold findall_ci at hnil
  rw [List.filterMap_eq_nil] at hnil
  have hnone := hnil line hmem
  have hs := lineMatchIdx_isSome_of_occursInCI lit.toList line
    (occursInCI_of_occursIn lit.toList line hocc)
  simp only [List.map] at hnone
  cases hL : lineMatchIdx [lit.toList] line with
  | none => rw [hL] at hs; simp at hs
  | some p => rw [hL] at hnone; simp at hnone

theorem mongo_detects_getaddrinfo (content : String)
    (h : occursIn "getaddrinfo ENOTFOUND".toList content.toList = true) :
    (analyze_mongodb_issue content).is_mongodb_issue = true := by
  have hne := findall_ci_ne_nil_of_occursIn "getaddrinfo ENOTFOUND" content (by decide) h
  unfold analyze_mongodb_issue
  have hjoin : ((mongodb_error_patterns.map (fun p => findall_ci [p] content)).join) ≠ [] := by
    intro hj
    rw [List.join_eq_nil] at hj
    exact hne (hj _ (List.mem_map_of_mem _ (by simp [mongodb_error_patterns])))
  rw [if_neg (by simpa [List.isEmpty_iff] using hjoin)]

theorem local_finish_analysis_ne_empty (fr sr errs : List String) (t : String) :
    (local_finish fr sr errs t).analysis ≠ "" := by
  unfold local_finish
  intro hcontra
  have hlen := congrArg String.length hcontra
  simp only [String.length_append] at hlen
  have hh : local_header.length = 29 := by decide
  have hj : ("" : String).length = 0 := rfl
  omega

theorem local_analysis_props (fc sc : String) (fr sr : List String)
    (h : (analyze_mongodb_issue fc).is_mongodb_issue = false) :
    (local_analysis fc sc fr sr).analysis_type = "local" ∧
    (local_analysis fc sc fr sr).analysis ≠ "" := by
  unfold local_analysis
  dsimp only
  split
  · rw [if_neg (by simp [h])]
    exact ⟨rfl, local_finish_analysis_ne_empty _ _ _ _⟩
  · split
    · exact ⟨rfl, local_finish_analysis_ne_empty _ _ _ _⟩
    · split
      · exact ⟨rfl, local_finish_analysis_ne_empty _ _ _ _⟩
      · split
        · exact ⟨rfl, local_finish_analysis_ne_empty _ _ _ _⟩
        · split
          · exact ⟨rfl, local_finish_analysis_ne_empty _ _ _ _⟩
          · exact ⟨rfl, local_finish_analysis_ne_empty _ _ _ _⟩

/-- C1: for every failure log whose text contains the database DNS-failure
signature `getaddrinfo ENOTFOUND`, `analyze_failure` returns a result whose
analysis type is the specialized tier `mongodb_specialized`, for every
environment — in particular regardless of whether a generative model is
configured — so the generative and heuristic tiers are never consulted for
such input. -/
theorem c1_dns_signature_specialized_tier (env : PipelineEnv) (failure_log_path : String)
    (success_log_path : Option String) (content : String)
    (hfs : env.fs failure_log_path = some content)
    (hsig : occursIn "getaddrinfo ENOTFOUND".toList content.toList = true) :
    ∃ r, analyze_failure env failure_log_path success_log_path = Except.ok r ∧
      r.analysis_type = "mongodb_specialized" := by
  have hissue := mongo_detects_getaddrinfo content hsig
  unfold analyze_failure
  rw [hfs]
  dsimp only
  rw [if_pos hissue]
  exact ⟨_, rfl, rfl⟩

theorem c1_dns_signature_specialized_tier_witness :
    ∃ r, analyze_failure
        ⟨(fun p => if p = "f.txt" then some "Error: getaddrinfo ENOTFOUND mongodb-central-stg-headless" else none),
         true, (fun _ => Except.ok "llm answer"), (fun _ _ => "")⟩
        "f.txt" none = Except.ok r ∧
      r.analysis_type = "mongodb_specialized" :=
  c1_dns_signature_specialized_tier _ "f.txt" none
    "Error: getaddrinfo ENOTFOUND mongodb-central-stg-headless" (by decide) (by decide)

/-- C2 counterexample: the claim as stated quantifies over every non-empty
failure-log text, but on the non-empty text `getaddrinfo ENOTFOUND
mongodb-host` with no generative model configured, `analyze_failure`
returns the specialized analysis type, not the local-heuristic one. -/
theorem c2_local_tier_counterexample :
    (analyze_failure
        ⟨(fun p => if p = "f.txt" then some "getaddrinfo ENOTFOUND mongodb-host" else none),
         false, (fun _ => Except.error ()), (fun _ _ => "")⟩
        "f.txt" none).toOption.map (fun r => r.analysis_type) = some "mongodb_specialized" ∧
    ("getaddrinfo ENOTFOUND mongodb-host" : String) ≠ "" ∧
    ("mongodb_specialized" : String) ≠ "local" := by
  refine ⟨by decide, by decide, by decide⟩

/-- C2 (amended): for every non-empty failure-log text on which the
specialized MongoDB detector does not fire, with no generative model
configured, `analyze_failure` terminates without raising and returns a
result whose analysis type is the local-heuristic tier `local` with
non-empty analysis text. -/
theorem c2_local_tier_total_amended (env : PipelineEnv) (failure_log_path : String)
    (success_log_path : Option String) (content : String)
    (hfs : env.fs failure_log_path = some content)
    (hnonempty : content ≠ "")
    (hnomongo : (analyze_mongodb_issue content).is_mongodb_issue = false)
    (hnollm : env.llm_configured = false) :
    ∃ r, analyze_failure env failure_log_path success_log_path = Except.ok r ∧
      r.analysis_type = "local" ∧ r.analysis ≠ "" := by
  unfold analyze_failure
  rw [hfs]
  dsimp only
  rw [if_neg (by simp [hnomongo])]
  rw [if_pos (by simp [hnollm])]
  have hprops := local_analysis_props content
    (match success_log_path with
     | some p => (env.fs p).getD ""
     | none => "")
    (rag_extract_repos env.fs failure_log_path)
    (match success_log_path with
     | some p => rag_extract_repos env.fs p
     | none => [])
    hnomongo
  exact ⟨_, rfl, hprops.1, hprops.2⟩

theorem c2_local_tier_total_amended_witness :
    ∃ r, analyze_failure
        ⟨(fun p => if p = "f.txt" then some "Step 4 exited with code 1" else none),
         false, (fun _ => Except.error ()), (fun _ _ => "")⟩
        "f.txt" none = Except.ok r ∧
      r.analysis_type = "local" ∧ r.analysis ≠ "" :=
  c2_local_tier_total_amended _ "f.txt" none "Step 4 exited with code 1"
    (by decide) (by decide) (by decide) (by decide)

/-- C3: `analyze_failure` opens the failure log with no exception handler,
so when the log cannot be read the call propagates the exception to the
caller instead of returning a result carrying an explicit error field; the
embedded model evaluates the cited code at a missing path. -/
theorem c3_missing_file_raises :
    analyze_failure ⟨(fun _ => none), false, (fun _ => Except.error ()), (fun _ _ => "")⟩
      "missing.txt" none = Except.error (PyError.fileNotFound "missing.txt") := rfl
